import Mathlib

/-!
Shallow embedding of `hpipy/goSimilarity.py` (class `GOSimilarity`): the
pairing / chunking / scoring / filtering engine behind `predictGOPPIs`,
together with the `readGOFile` header heuristic and the worker-pool sizing
expression.  Python floats are modelled by `PyFloat` (a rational value, NaN,
or a signed infinity) with the IEEE-754 comparison behaviour of `>`.  The
external R call `gosim.mgoSim` (GOSemSim, reached through rpy2) is opaque to
the module and is modelled as a function parameter returning either a float
value or an error (an `Except`), covering both a normal return and a raised
exception.  A two-column pandas DataFrame of proteins and GO terms is
modelled as its list of rows, so `zip(df[ProteinID], df[GOTerm])` is the row
list itself.
-/

namespace HPIpy

/-- Model of a Python `float` as used by the module: a finite value
(modelled exactly as a rational), NaN, or a signed infinity. -/
inductive PyFloat where
  | finite (q : ℚ)
  | nan
  | inf
  | ninf
deriving DecidableEq

/-- Python strict comparison `a > b` on floats, with IEEE-754 semantics:
any comparison with NaN is false; `inf` is above everything but itself and
NaN; `ninf` is below everything but itself and NaN. -/
def PyFloat.gt : PyFloat → PyFloat → Bool
  | .finite a, .finite b => a > b
  | .nan, _ => false
  | _, .nan => false
  | .inf, .inf => false
  | .inf, _ => true
  | _, .inf => false
  | .ninf, _ => false
  | .finite _, .ninf => true

/-- A float is finite when it is neither NaN nor an infinity
(Python `math.isfinite`). -/
def PyFloat.isFinite : PyFloat → Bool
  | .finite _ => true
  | _ => false

/-- The opaque external semantic-similarity capability
`gosim.mgoSim(host_go, pathogen_go, semData, measure, combine)` followed by
the `float(sim_score[0])` extraction: it either produces a Python float or
raises.  `σ` is the opaque type of the `semData` handle. -/
abbrev MgoSim (σ : Type) : Type :=
  String → String → σ → String → String → Except Unit PyFloat

/-- One element of the `pairs` list built in `predictGOPPIs` (lines
303-307): the 8-tuple
`(host_protein, host_go, pathogen_protein, pathogen_go, semData,
go_sim_method, go_combine, simScore)`. -/
structure PairTask (σ : Type) where
  host_protein : String
  host_go : String
  pathogen_protein : String
  pathogen_go : String
  semData : σ
  go_sim_method : String
  go_combine : String
  simScore : PyFloat
deriving DecidableEq

/-- The list `[host_protein, pathogen_protein, host_go, pathogen_go,
similarity_score]` returned by `process_pair` (line 252), i.e. one row of
the result table in its fixed column order. -/
structure ScoredRow where
  host : String
  pathogen : String
  host_go : String
  pathogen_go : String
  similarity_score : PyFloat
deriving DecidableEq

/-- The DataFrame returned by `predictGOPPIs` (line 323): named columns
plus the accumulated rows. -/
structure ResultTable where
  columns : List String
  rows : List ScoredRow
deriving DecidableEq

/-- `GOSimilarity.calculate_go_similarity` (lines 210-215): call the
external capability inside `try`; on a normal return pass the float
through, on any raised exception return `None`. -/
def calculate_go_similarity (mgoSim : MgoSim σ) (host_go pathogen_go : String)
    (semData : σ) (go_sim_method go_combine : String) : Option PyFloat :=
  match mgoSim host_go pathogen_go semData go_sim_method go_combine with
  | .ok sim_score => some sim_score
  | .error _ => none

/-- `GOSimilarity.process_pair` (lines 248-253): score the pair and return
a row exactly when the score is not `None` and strictly exceeds the
threshold carried in the task. -/
def process_pair (mgoSim : MgoSim σ) (args : PairTask σ) : Option ScoredRow :=
  let similarity_score :=
    calculate_go_similarity mgoSim args.host_go args.pathogen_go args.semData
      args.go_sim_method args.go_combine
  match similarity_score with
  | some s =>
      if PyFloat.gt s args.simScore then
        some ⟨args.host_protein, args.pathogen_protein, args.host_go, args.pathogen_go, s⟩
      else none
  | none => none

/-- `GOSimilarity.chunk_pairs` (lines 271-272):
`for i in range(0, len(pairs), chunk_size): yield pairs[i:i+chunk_size]`.
`range(0, n, step)` for `step ≥ 1` is `List.range' 0 ⌈n/step⌉ step`, and the
slice `pairs[i:i+chunk_size]` is `(pairs.drop i).take chunk_size`.
(Python raises `ValueError` for step 0; every claim assumes `chunk_size ≥ 1`.) -/
def chunk_pairs (pairs : List α) (chunk_size : ℕ) : List (List α) :=
  (List.range' 0 ((pairs.length + chunk_size - 1) / chunk_size) chunk_size).map
    fun i => (pairs.drop i).take chunk_size

/-- The pair-generation list comprehension of `predictGOPPIs` (lines
303-307): for each host row (in input order), for each pathogen row (in
input order), the 8-tuple task. -/
def mkPairs (hostGOdf pathogenGOdf : List (String × String)) (semData : σ)
    (go_sim_method go_combine : String) (simScore : PyFloat) : List (PairTask σ) :=
  hostGOdf.flatMap fun h =>
    pathogenGOdf.map fun p =>
      ⟨h.1, h.2, p.1, p.2, semData, go_sim_method, go_combine, simScore⟩

/-- `GOSimilarity.predictGOPPIs` (lines 300-325): generate all pairs,
process them chunk by chunk — `pool.map(self.process_pair, chunk)` returns
one result per task in task order, and `filter(None, results)` drops the
`None` markers — accumulate across chunks, and wrap the rows in a DataFrame
with the five fixed columns.  (The Python default for `chunk_size` is
10000000.) -/
def predictGOPPIs (mgoSim : MgoSim σ) (hostGOdf pathogenGOdf : List (String × String))
    (semData : σ) (go_sim_method go_combine : String) (simScore : PyFloat)
    (chunk_size : ℕ) : ResultTable :=
  let pairs := mkPairs hostGOdf pathogenGOdf semData go_sim_method go_combine simScore
  let predicted_interactions :=
    ((chunk_pairs pairs chunk_size).map
      fun chunk => ((chunk.map (process_pair mgoSim)).filterMap id)).flatten
  ⟨["Host", "Pathogen", "Host_GO", "Pathogen_GO", "Similarity_Score"],
    predicted_interactions⟩

/-- The worker-pool size requested for every chunk at line 316:
`Pool(processes=cpu_count()-1)` (natural subtraction matches Python here
because `cpu_count() ≥ 1`; `Pool` itself raises `ValueError` when the
requested count is below 1). -/
def worker_pool_processes (cpu_count : ℕ) : ℕ :=
  cpu_count - 1

/-- Whether `multiprocessing.Pool(processes=n)` accepts the request: it
raises `ValueError` unless at least one process is requested. -/
def pool_accepts (processes : ℕ) : Bool :=
  decide (1 ≤ processes)

/-- Whether a character list starts with the given pattern. -/
def starts_with_chars : List Char → List Char → Bool
  | [], _ => true
  | _ :: _, [] => false
  | p :: ps, c :: cs => p == c && starts_with_chars ps cs

/-- Whether the characters `G`, `O`, `:` occur consecutively somewhere in a
character list: some suffix starts with them. -/
def contains_go_marker : List Char → Bool
  | [] => false
  | c :: cs => starts_with_chars ['G', 'O', ':'] (c :: cs) || contains_go_marker cs

/-- One cell of the first parsed row contains the text `GO:` —
`df.iloc[0].astype(str).str.contains("GO:")` on one cell (the pattern has
no regex metacharacters, so `contains` is a plain substring test). -/
def cell_has_go (cell : String) : Bool :=
  contains_go_marker cell.data

/-- The header heuristic of `readGOFile` (line 156): some value of the
first row contains `GO:`. -/
def first_row_has_go (row : List String) : Bool :=
  row.any cell_has_go

/-- The table assembled by `readGOFile`: the column names it assigns plus
the data rows it keeps. -/
structure GOFileTable where
  columns : List String
  rows : List (List String)
deriving DecidableEq

/-- `GOSimilarity.readGOFile` (lines 149-165), modelled on the outcome of
`pd.read_csv(filepath, sep=None, engine=python, header=None)`: `none` when
the read raised `pandas.errors.ParserError` (the file cannot be parsed as
delimited text — the only exception the `try` catches), otherwise the list
of parsed rows, every cell viewed through `astype(str)` as a string.  When
parsing succeeds the frame is non-empty (`read_csv` raises
`EmptyDataError`, uncaught, before an empty frame could reach this code),
so the empty-row-list case is unreachable and modelled as no table.  If the
first row contains `GO:` the input is headerless: all rows are kept and the
default names are assigned; otherwise the first row is a header and is
dropped (the code first copies it into `df.columns`, then overwrites the
names), and the same two names are assigned. -/
def readGOFile (parsed : Option (List (List String))) : Option GOFileTable :=
  match parsed with
  | none => none
  | some [] => none
  | some (row0 :: rest) =>
      if first_row_has_go row0 then
        some ⟨["ProteinID", "GOTerm"], row0 :: rest⟩
      else
        some ⟨["ProteinID", "GOTerm"], rest⟩

/-! Helper lemmas about `chunk_pairs`. -/

theorem chunk_pairs_nil (chunk_size : ℕ) :
    chunk_pairs ([] : List α) chunk_size = [] := by
  rcases Nat.eq_zero_or_pos chunk_size with h | h
  · subst h; simp [chunk_pairs]
  · simp [chunk_pairs, Nat.div_eq_of_lt (by omega : chunk_size - 1 < chunk_size)]

theorem chunk_pairs_cons (l : List α) (chunk_size : ℕ) (hcs : 1 ≤ chunk_size)
    (hl : l ≠ []) :
    chunk_pairs l chunk_size
      = l.take chunk_size :: chunk_pairs (l.drop chunk_size) chunk_size := by
  have hL : 1 ≤ l.length := List.length_pos.mpr hl
  have hN : (l.length + chunk_size - 1) / chunk_size
      = (l.length - 1) / chunk_size + 1 := by
    have h1 : l.length + chunk_size - 1 = (l.length - 1) + chunk_size := by omega
    rw [h1, Nat.add_div_right _ hcs]
  have hN2 : ((l.drop chunk_size).length + chunk_size - 1) / chunk_size
      = (l.length - 1) / chunk_size := by
    rw [List.length_drop]
    rcases le_or_lt chunk_size l.length with h | h
    · have h2 : l.length - chunk_size + chunk_size - 1 = l.length - 1 := by omega
      rw [h2]
    · have h0 : l.length - chunk_size = 0 := by omega
      rw [h0, Nat.zero_add, Nat.div_eq_of_lt (by omega), Nat.div_eq_of_lt (by omega)]
  unfold chunk_pairs
  rw [hN, hN2, List.range'_succ, List.map_cons, List.drop_zero, Nat.zero_add]
  refine congrArg _ ?_
  have hshift : List.range' chunk_size ((l.length - 1) / chunk_size) chunk_size
      = (List.range' 0 ((l.length - 1) / chunk_size) chunk_size).map
          fun x => chunk_size + x := by
    rw [List.map_add_range', Nat.add_zero]
  rw [hshift, List.map_map]
  refine List.map_congr_left ?_
  intro i _
  simp only [Function.comp]
  rw [List.drop_drop]

theorem chunk_pairs_flatten (chunk_size : ℕ) (hcs : 1 ≤ chunk_size) :
    ∀ (n : ℕ) (l : List α), l.length ≤ n →
      (chunk_pairs l chunk_size).flatten = l := by
  intro n
  induction n with
  | zero =>
      intro l hl
      have : l = [] := List.length_eq_zero.mp (Nat.le_zero.mp hl)
      subst this
      rw [chunk_pairs_nil]
      rfl
  | succ n ih =>
      intro l hl
      rcases eq_or_ne l [] with h | h
      · subst h; rw [chunk_pairs_nil]; rfl
      · rw [chunk_pairs_cons l chunk_size hcs h, List.flatten_cons,
          ih (l.drop chunk_size) (by rw [List.length_drop]; omega),
          List.take_append_drop]

theorem chunk_pairs_length_le (pairs : List α) (chunk_size : ℕ)
    (c : List α) (hc : c ∈ chunk_pairs pairs chunk_size) :
    c.length ≤ chunk_size := by
  rcases List.mem_map.mp hc with ⟨i, _, rfl⟩
  calc ((pairs.drop i).take chunk_size).length
      ≤ chunk_size := by rw [List.length_take]; omega

theorem chunk_pairs_count (pairs : List α) (chunk_size : ℕ) :
    (chunk_pairs pairs chunk_size).length
      = (pairs.length + chunk_size - 1) / chunk_size := by
  simp [chunk_pairs]

/-! Helper lemmas about `mkPairs` and `predictGOPPIs`. -/

theorem mkPairs_eq_product_map (hostGOdf pathogenGOdf : List (String × String))
    (semData : σ) (go_sim_method go_combine : String) (simScore : PyFloat) :
    mkPairs hostGOdf pathogenGOdf semData go_sim_method go_combine simScore
      = (hostGOdf ×ˢ pathogenGOdf).map
          fun x => ⟨x.1.1, x.1.2, x.2.1, x.2.2, semData, go_sim_method, go_combine, simScore⟩ := by
  induction hostGOdf with
  | nil => rfl
  | cons h hs ih =>
      simp only [mkPairs, List.flatMap_cons, List.product_cons, List.map_append,
        List.map_map] at *
      rw [ih]
      rfl

theorem mkPairs_length (hostGOdf pathogenGOdf : List (String × String))
    (semData : σ) (go_sim_method go_combine : String) (simScore : PyFloat) :
    (mkPairs hostGOdf pathogenGOdf semData go_sim_method go_combine simScore).length
      = hostGOdf.length * pathogenGOdf.length := by
  rw [mkPairs_eq_product_map, List.length_map, List.length_product]

theorem mkPairs_keys (hostGOdf pathogenGOdf : List (String × String))
    (semData : σ) (go_sim_method go_combine : String) (simScore : PyFloat) :
    (mkPairs hostGOdf pathogenGOdf semData go_sim_method go_combine simScore).map
        (fun p => (p.host_protein, p.pathogen_protein))
      = (hostGOdf.map Prod.fst) ×ˢ (pathogenGOdf.map Prod.fst) := by
  induction hostGOdf with
  | nil => rfl
  | cons h hs ih =>
      simp only [mkPairs, List.flatMap_cons, List.map_cons, List.product_cons,
        List.map_append, List.map_map] at *
      rw [ih]
      rfl

theorem mem_mkPairs_config {p : PairTask σ}
    {hostGOdf pathogenGOdf : List (String × String)} {semData : σ}
    {go_sim_method go_combine : String} {simScore : PyFloat}
    (hp : p ∈ mkPairs hostGOdf pathogenGOdf semData go_sim_method go_combine simScore) :
    p.semData = semData ∧ p.go_sim_method = go_sim_method
      ∧ p.go_combine = go_combine ∧ p.simScore = simScore := by
  rcases List.mem_flatMap.mp hp with ⟨h, _, hmem⟩
  rcases List.mem_map.mp hmem with ⟨q, _, rfl⟩
  exact ⟨rfl, rfl, rfl, rfl⟩

theorem predictGOPPIs_columns (mgoSim : MgoSim σ)
    (hostGOdf pathogenGOdf : List (String × String)) (semData : σ)
    (go_sim_method go_combine : String) (simScore : PyFloat) (chunk_size : ℕ) :
    (predictGOPPIs mgoSim hostGOdf pathogenGOdf semData go_sim_method go_combine
        simScore chunk_size).columns
      = ["Host", "Pathogen", "Host_GO", "Pathogen_GO", "Similarity_Score"] :=
  rfl

theorem predictGOPPIs_rows (mgoSim : MgoSim σ)
    (hostGOdf pathogenGOdf : List (String × String)) (semData : σ)
    (go_sim_method go_combine : String) (simScore : PyFloat) (chunk_size : ℕ)
    (hcs : 1 ≤ chunk_size) :
    (predictGOPPIs mgoSim hostGOdf pathogenGOdf semData go_sim_method go_combine
        simScore chunk_size).rows
      = (mkPairs hostGOdf pathogenGOdf semData go_sim_method go_combine
          simScore).filterMap (process_pair mgoSim) := by
  show ((chunk_pairs _ chunk_size).map
      fun chunk => ((chunk.map (process_pair mgoSim)).filterMap id)).flatten = _
  have hinner : ∀ chunk : List (PairTask σ),
      (chunk.map (process_pair mgoSim)).filterMap id
        = chunk.filterMap (process_pair mgoSim) := by
    intro chunk
    rw [List.filterMap_map, Function.id_comp]
  calc ((chunk_pairs _ chunk_size).map
        fun chunk => ((chunk.map (process_pair mgoSim)).filterMap id)).flatten
      = ((chunk_pairs _ chunk_size).map
          (List.filterMap (process_pair mgoSim))).flatten := by
        refine congrArg _ (List.map_congr_left ?_)
        intro chunk _
        exact hinner chunk
    _ = ((chunk_pairs (mkPairs hostGOdf pathogenGOdf semData go_sim_method
            go_combine simScore) chunk_size).flatten).filterMap
          (process_pair mgoSim) := by
        rw [List.filterMap_flatten]
    _ = _ := by
        rw [chunk_pairs_flatten chunk_size hcs _ _ (Nat.le_refl _)]

theorem filterMap_eq_filterMap_filter (g : α → Option β) (keep : α → Bool)
    (l : List α) (h : ∀ x ∈ l, keep x = false → g x = none) :
    l.filterMap g = (l.filter keep).filterMap g := by
  induction l with
  | nil => rfl
  | cons a l ih =>
      have htail : ∀ x ∈ l, keep x = false → g x = none := by
        intro x hx
        exact h x (List.mem_cons_of_mem a hx)
      rw [List.filter_cons]
      rcases hk : keep a with hf | ht
      · have : g a = none := h a (List.mem_cons_self a l) hk
        simp only [Bool.false_eq_true, if_false, List.filterMap_cons, this, ih htail]
      · simp only [if_true, List.filterMap_cons, ih htail]

/-- Reference implementation used by the refinement claim, written from
the spec: a naive sequential loop applies `process_pair` to each generated
pair in generation order and keeps the non-`None` results, with the same
five fixed columns. -/
def predictGOPPIs_naive (mgoSim : MgoSim σ) (hostGOdf pathogenGOdf : List (String × String))
    (semData : σ) (go_sim_method go_combine : String) (simScore : PyFloat) : ResultTable :=
  ⟨["Host", "Pathogen", "Host_GO", "Pathogen_GO", "Similarity_Score"],
    (mkPairs hostGOdf pathogenGOdf semData go_sim_method go_combine simScore).filterMap
      (process_pair mgoSim)⟩

/-! Claim theorems. -/

/-- C1 counterexample: the claim fails as stated — on the (legitimate) host
table in which one protein `h1` carries two GO terms on two rows, the pair
generation step produces two PairTasks with the same `(hostID, pathogenID)`
key `(h1, p1)`, so the keys are not unique. -/
theorem mkPairs_duplicate_key_counterexample :
    ¬ ((mkPairs [("h1", "GO:0001"), ("h1", "GO:0002")] [("p1", "GO:0003")]
          () "Wang" "BMA" (PyFloat.finite 0)).map
        (fun p => (p.host_protein, p.pathogen_protein))).Nodup := by
  decide

/-- C1 (amended): for every non-empty host table with H rows and non-empty
pathogen table with P rows, pair generation produces exactly H×P PairTasks,
ordered as the complete cross-product (each host row in input order paired
with every pathogen row in input order); and when the ProteinIDs are
pairwise distinct within each input table, each PairTask has a unique
`(hostID, pathogenID)` key. -/
theorem mkPairs_cross_product (hostGOdf pathogenGOdf : List (String × String))
    (semData : σ) (go_sim_method go_combine : String) (simScore : PyFloat)
    (_hh : hostGOdf ≠ []) (_hp : pathogenGOdf ≠ []) :
    (mkPairs hostGOdf pathogenGOdf semData go_sim_method go_combine simScore).length
        = hostGOdf.length * pathogenGOdf.length
      ∧ mkPairs hostGOdf pathogenGOdf semData go_sim_method go_combine simScore
          = (hostGOdf ×ˢ pathogenGOdf).map
              (fun x => ⟨x.1.1, x.1.2, x.2.1, x.2.2, semData, go_sim_method,
                go_combine, simScore⟩)
      ∧ ((hostGOdf.map Prod.fst).Nodup → (pathogenGOdf.map Prod.fst).Nodup →
          ((mkPairs hostGOdf pathogenGOdf semData go_sim_method go_combine simScore).map
            (fun p => (p.host_protein, p.pathogen_protein))).Nodup) :=
  ⟨mkPairs_length hostGOdf pathogenGOdf semData go_sim_method go_combine simScore,
   mkPairs_eq_product_map hostGOdf pathogenGOdf semData go_sim_method go_combine simScore,
   fun hhn hpn => by rw [mkPairs_keys]; exact hhn.product hpn⟩

/-- Witness for the amended C1 at a concrete input with distinct ProteinIDs
on each side. -/
theorem mkPairs_cross_product_witness :
    ([("h1", "GO:0001"), ("h2", "GO:0002")] : List (String × String)) ≠ []
      ∧ ([("p1", "GO:0003")] : List (String × String)) ≠ []
      ∧ (([("h1", "GO:0001"), ("h2", "GO:0002")] : List (String × String)).map
          Prod.fst).Nodup
      ∧ (([("p1", "GO:0003")] : List (String × String)).map Prod.fst).Nodup
      ∧ ((mkPairs [("h1", "GO:0001"), ("h2", "GO:0002")] [("p1", "GO:0003")]
            () "Wang" "BMA" (PyFloat.finite 0)).length = 2 * 1
        ∧ mkPairs [("h1", "GO:0001"), ("h2", "GO:0002")] [("p1", "GO:0003")]
            () "Wang" "BMA" (PyFloat.finite 0)
          = (([("h1", "GO:0001"), ("h2", "GO:0002")] : List (String × String))
              ×ˢ ([("p1", "GO:0003")] : List (String × String))).map
              (fun x => ⟨x.1.1, x.1.2, x.2.1, x.2.2, (), "Wang", "BMA", PyFloat.finite 0⟩)
        ∧ ((mkPairs [("h1", "GO:0001"), ("h2", "GO:0002")] [("p1", "GO:0003")]
              () "Wang" "BMA" (PyFloat.finite 0)).map
            (fun p => (p.host_protein, p.pathogen_protein))).Nodup) :=
  ⟨by decide, by decide, by decide, by decide,
   (mkPairs_cross_product [("h1", "GO:0001"), ("h2", "GO:0002")] [("p1", "GO:0003")]
     () "Wang" "BMA" (PyFloat.finite 0) (by decide) (by decide)).1,
   (mkPairs_cross_product [("h1", "GO:0001"), ("h2", "GO:0002")] [("p1", "GO:0003")]
     () "Wang" "BMA" (PyFloat.finite 0) (by decide) (by decide)).2.1,
   (mkPairs_cross_product [("h1", "GO:0001"), ("h2", "GO:0002")] [("p1", "GO:0003")]
     () "Wang" "BMA" (PyFloat.finite 0) (by decide) (by decide)).2.2
     (by decide) (by decide)⟩

/-- C3: for every list of pairs and every chunkSize ≥ 1, `chunk_pairs`
yields chunks each of length at most chunkSize, and concatenating the
chunks in yield order reproduces exactly the input list — hence the chunks
are contiguous, non-overlapping slices preserving the original order
within and across chunks. -/
theorem chunk_pairs_lossless (pairs : List α) (chunk_size : ℕ) (hcs : 1 ≤ chunk_size) :
    (chunk_pairs pairs chunk_size).flatten = pairs
      ∧ ∀ c ∈ chunk_pairs pairs chunk_size, c.length ≤ chunk_size :=
  ⟨chunk_pairs_flatten chunk_size hcs pairs.length pairs (Nat.le_refl _),
   fun c hc => chunk_pairs_length_le pairs chunk_size c hc⟩

/-- Witness for C3 at a concrete list and chunk size. -/
theorem chunk_pairs_lossless_witness :
    (1 : ℕ) ≤ 2
      ∧ ((chunk_pairs ([10, 20, 30] : List ℕ) 2).flatten = [10, 20, 30]
        ∧ ∀ c ∈ chunk_pairs ([10, 20, 30] : List ℕ) 2, c.length ≤ 2) :=
  ⟨by decide, chunk_pairs_lossless [10, 20, 30] 2 (by decide)⟩

/-- C6: if either the host table or the pathogen table has zero proteins,
`predictGOPPIs` generates zero PairTasks and returns a ResultTable with
zero rows and the five fixed columns. -/
theorem predictGOPPIs_empty_inputs (mgoSim : MgoSim σ)
    (hostGOdf pathogenGOdf : List (String × String)) (semData : σ)
    (go_sim_method go_combine : String) (simScore : PyFloat) (chunk_size : ℕ)
    (h : hostGOdf = [] ∨ pathogenGOdf = []) :
    mkPairs hostGOdf pathogenGOdf semData go_sim_method go_combine simScore = []
      ∧ predictGOPPIs mgoSim hostGOdf pathogenGOdf semData go_sim_method go_combine
          simScore chunk_size
        = ⟨["Host", "Pathogen", "Host_GO", "Pathogen_GO", "Similarity_Score"], []⟩ := by
  have hpairs : mkPairs hostGOdf pathogenGOdf semData go_sim_method go_combine
      simScore = [] := by
    rcases h with h | h
    · subst h; rfl
    · subst h
      rw [mkPairs_eq_product_map, List.product_nil]
      rfl
  refine ⟨hpairs, ?_⟩
  simp only [predictGOPPIs, hpairs, chunk_pairs_nil, List.map_nil, List.flatten_nil]

/-- Witness for C6: an empty host table against a non-empty pathogen table. -/
theorem predictGOPPIs_empty_inputs_witness :
    (([] : List (String × String)) = [] ∨ ([("p1", "GO:0002")] : List (String × String)) = [])
      ∧ (mkPairs ([] : List (String × String)) [("p1", "GO:0002")] () "Wang" "BMA"
          (PyFloat.finite 0) = []
        ∧ predictGOPPIs (fun _ _ _ _ _ => Except.ok (PyFloat.finite 1))
            ([] : List (String × String)) [("p1", "GO:0002")] () "Wang" "BMA"
            (PyFloat.finite 0) 2
          = ⟨["Host", "Pathogen", "Host_GO", "Pathogen_GO", "Similarity_Score"], []⟩) :=
  ⟨Or.inl rfl,
   predictGOPPIs_empty_inputs (fun _ _ _ _ _ => Except.ok (PyFloat.finite 1))
     ([] : List (String × String)) [("p1", "GO:0002")] () "Wang" "BMA"
     (PyFloat.finite 0) 2 (Or.inl rfl)⟩

/-- C7 counterexample: on a single-core machine the code requests
`cpu_count() - 1 = 0` worker processes — not `max(1, cores − 1) = 1` as the
claim states — and `Pool` rejects a request for 0 processes. -/
theorem worker_pool_processes_counterexample :
    worker_pool_processes 1 ≠ max 1 (1 - 1)
      ∧ pool_accepts (worker_pool_processes 1) = false := by
  decide

/-- C7 (amended): for every chunk the pool is created with
`cpu_count() - 1` worker processes, which equals `max(1, cores − 1)`
whenever at least two CPU cores are available (and is then a count `Pool`
accepts); with a single core the code requests 0 processes and `Pool`
raises. -/
theorem worker_pool_processes_eq_max (cpu_count : ℕ) (h : 2 ≤ cpu_count) :
    worker_pool_processes cpu_count = max 1 (cpu_count - 1)
      ∧ pool_accepts (worker_pool_processes cpu_count) = true := by
  unfold worker_pool_processes pool_accepts
  exact ⟨by omega, decide_eq_true (by omega)⟩

/-- Witness for the amended C7 on an 8-core machine. -/
theorem worker_pool_processes_eq_max_witness :
    (2 : ℕ) ≤ 8
      ∧ (worker_pool_processes 8 = max 1 (8 - 1)
        ∧ pool_accepts (worker_pool_processes 8) = true) :=
  ⟨by decide, worker_pool_processes_eq_max 8 (by decide)⟩

/-- C8 counterexample: the claim fails as stated — for the empty pair list
and chunkSize 5 (which is larger than the total pair count 0), `chunk_pairs`
yields zero chunks, not exactly one. -/
theorem chunk_pairs_boundary_counterexample :
    ([] : List ℕ).length < 5 ∧ (chunk_pairs ([] : List ℕ) 5).length = 0
      ∧ (chunk_pairs ([] : List ℕ) 5).length ≠ 1 := by
  decide

/-- C8 (amended): for every pair list and chunkSize: if the list is
non-empty and chunkSize is larger than the total pair count, `chunk_pairs`
yields exactly one chunk (for the empty list it yields zero chunks); and if
chunkSize = 1 it yields exactly one chunk per pair. -/
theorem chunk_pairs_boundary (pairs : List α) (chunk_size : ℕ) :
    (pairs ≠ [] → pairs.length < chunk_size →
      (chunk_pairs pairs chunk_size).length = 1)
      ∧ (chunk_pairs pairs 1).length = pairs.length := by
  constructor
  · intro hne hlt
    rw [chunk_pairs_count]
    have h1 : 1 ≤ pairs.length := List.length_pos.mpr hne
    have h2 : pairs.length + chunk_size - 1 = (pairs.length - 1) + chunk_size := by
      omega
    rw [h2, Nat.add_div_right _ (by omega), Nat.div_eq_of_lt (by omega)]
  · rw [chunk_pairs_count, Nat.add_sub_cancel, Nat.div_one]

/-- Witness for the amended C8 on a concrete two-element list. -/
theorem chunk_pairs_boundary_witness :
    ([7, 8] : List ℕ) ≠ [] ∧ ([7, 8] : List ℕ).length < 5
      ∧ (chunk_pairs ([7, 8] : List ℕ) 5).length = 1
      ∧ (chunk_pairs ([7, 8] : List ℕ) 1).length = ([7, 8] : List ℕ).length :=
  ⟨by decide, by decide,
   (chunk_pairs_boundary ([7, 8] : List ℕ) 5).1 (by decide) (by decide),
   (chunk_pairs_boundary ([7, 8] : List ℕ) 1).2⟩

/-- C9: `readGOFile` treats a table whose first parsed row contains a value
matching `GO:` as headerless, keeping all rows under the default column
names; otherwise it treats the first row as a header and drops it; and when
the file cannot be parsed as delimited text it returns `None` instead of
raising. -/
theorem readGOFile_header_heuristic :
    readGOFile none = none
      ∧ (∀ (row0 : List String) (rest : List (List String)),
          first_row_has_go row0 = true →
            readGOFile (some (row0 :: rest))
              = some ⟨["ProteinID", "GOTerm"], row0 :: rest⟩)
      ∧ (∀ (row0 : List String) (rest : List (List String)),
          first_row_has_go row0 = false →
            readGOFile (some (row0 :: rest))
              = some ⟨["ProteinID", "GOTerm"], rest⟩) := by
  refine ⟨rfl, ?_, ?_⟩ <;> intro row0 rest h <;> simp [readGOFile, h]

/-- Witness for C9: a headerless file whose first row carries a GO term is
kept whole; a file opening with a header row loses that row. -/
theorem readGOFile_header_heuristic_witness :
    first_row_has_go ["P1", "GO:0001"] = true
      ∧ readGOFile (some [["P1", "GO:0001"], ["P2", "GO:0002"]])
          = some ⟨["ProteinID", "GOTerm"], [["P1", "GO:0001"], ["P2", "GO:0002"]]⟩
      ∧ first_row_has_go ["ProteinID", "GOTerm"] = false
      ∧ readGOFile (some [["ProteinID", "GOTerm"], ["P2", "GO:0002"]])
          = some ⟨["ProteinID", "GOTerm"], [["P2", "GO:0002"]]⟩ :=
  ⟨by decide,
   readGOFile_header_heuristic.2.1 ["P1", "GO:0001"] [["P2", "GO:0002"]] (by decide),
   by decide,
   readGOFile_header_heuristic.2.2 ["ProteinID", "GOTerm"] [["P2", "GO:0002"]] (by decide)⟩

/-- C2: for every input and every threshold, the ResultTable returned by
`predictGOPPIs` contains a row for a generated pair p iff the similarity
score computed for p is defined (not `None`) and strictly greater than the
threshold. -/
theorem predictGOPPIs_threshold_iff (mgoSim : MgoSim σ)
    (hostGOdf pathogenGOdf : List (String × String)) (semData : σ)
    (go_sim_method go_combine : String) (simScore : PyFloat) (chunk_size : ℕ)
    (hcs : 1 ≤ chunk_size) (p : PairTask σ)
    (hp : p ∈ mkPairs hostGOdf pathogenGOdf semData go_sim_method go_combine simScore) :
    (∃ s, (⟨p.host_protein, p.pathogen_protein, p.host_go, p.pathogen_go, s⟩ : ScoredRow)
        ∈ (predictGOPPIs mgoSim hostGOdf pathogenGOdf semData go_sim_method go_combine
            simScore chunk_size).rows)
      ↔ (∃ s, calculate_go_similarity mgoSim p.host_go p.pathogen_go semData
            go_sim_method go_combine = some s ∧ PyFloat.gt s simScore = true) := by
  rw [predictGOPPIs_rows mgoSim hostGOdf pathogenGOdf semData go_sim_method go_combine
    simScore chunk_size hcs]
  obtain ⟨d1, d2, d3, d4⟩ := mem_mkPairs_config hp
  constructor
  · rintro ⟨s, hs⟩
    rcases List.mem_filterMap.mp hs with ⟨q, hq, hqe⟩
    obtain ⟨c1, c2, c3, c4⟩ := mem_mkPairs_config hq
    cases hcalc : calculate_go_similarity mgoSim q.host_go q.pathogen_go q.semData
        q.go_sim_method q.go_combine with
    | none => simp [process_pair, hcalc] at hqe
    | some s2 =>
        by_cases hgt : PyFloat.gt s2 q.simScore = true
        · have hqe2 : q.host_protein = p.host_protein ∧ q.pathogen_protein = p.pathogen_protein
              ∧ q.host_go = p.host_go ∧ q.pathogen_go = p.pathogen_go ∧ s2 = s := by
            have := hqe
            simp only [process_pair, hcalc, hgt, if_true] at this
            have h5 := Option.some.inj this
            exact ⟨congrArg ScoredRow.host h5, congrArg ScoredRow.pathogen h5,
              congrArg ScoredRow.host_go h5, congrArg ScoredRow.pathogen_go h5,
              congrArg ScoredRow.similarity_score h5⟩
          obtain ⟨e1, e2, e3, e4, e5⟩ := hqe2
          refine ⟨s, ?_, ?_⟩
          · rw [← e3, ← e4, ← c1, ← c2, ← c3, hcalc, e5]
          · rw [← c4, ← e5]; exact hgt
        · simp [process_pair, hcalc, hgt] at hqe
  · rintro ⟨s, hcalc, hgt⟩
    refine ⟨s, List.mem_filterMap.mpr ⟨p, hp, ?_⟩⟩
    have hcalc2 : calculate_go_similarity mgoSim p.host_go p.pathogen_go p.semData
        p.go_sim_method p.go_combine = some s := by
      rw [d1, d2, d3]; exact hcalc
    have hgt2 : PyFloat.gt s p.simScore = true := by rw [d4]; exact hgt
    simp [process_pair, hcalc2, hgt2]

/-- Witness for C2: a single generated pair whose stubbed score 1 exceeds
the threshold 0, so the corresponding row is present. -/
theorem predictGOPPIs_threshold_iff_witness :
    (1 : ℕ) ≤ 1
      ∧ (⟨"h1", "GO:0001", "p1", "GO:0002", (), "Wang", "BMA", PyFloat.finite 0⟩ : PairTask Unit)
          ∈ mkPairs [("h1", "GO:0001")] [("p1", "GO:0002")] () "Wang" "BMA" (PyFloat.finite 0)
      ∧ ((∃ s, (⟨"h1", "p1", "GO:0001", "GO:0002", s⟩ : ScoredRow)
            ∈ (predictGOPPIs (fun _ _ _ _ _ => Except.ok (PyFloat.finite 1))
                [("h1", "GO:0001")] [("p1", "GO:0002")] () "Wang" "BMA"
                (PyFloat.finite 0) 1).rows)
        ↔ (∃ s, calculate_go_similarity (fun _ _ _ _ _ => Except.ok (PyFloat.finite 1))
              "GO:0001" "GO:0002" () "Wang" "BMA" = some s
            ∧ PyFloat.gt s (PyFloat.finite 0) = true)) :=
  ⟨Nat.le_refl 1, by decide,
   predictGOPPIs_threshold_iff (fun _ _ _ _ _ => Except.ok (PyFloat.finite 1))
     [("h1", "GO:0001")] [("p1", "GO:0002")] () "Wang" "BMA" (PyFloat.finite 0) 1
     (Nat.le_refl 1)
     ⟨"h1", "GO:0001", "p1", "GO:0002", (), "Wang", "BMA", PyFloat.finite 0⟩
     (by decide)⟩

/-- C4: for every input, scorer, threshold and chunk size ≥ 1,
`predictGOPPIs` returns exactly the table of the naive sequential loop that
applies `process_pair` to each generated pair in generation order and keeps
the non-`None` results — so the output row order is deterministic and
independent of the chunk size. -/
theorem predictGOPPIs_eq_naive (mgoSim : MgoSim σ)
    (hostGOdf pathogenGOdf : List (String × String)) (semData : σ)
    (go_sim_method go_combine : String) (simScore : PyFloat) (chunk_size : ℕ)
    (hcs : 1 ≤ chunk_size) :
    predictGOPPIs mgoSim hostGOdf pathogenGOdf semData go_sim_method go_combine
        simScore chunk_size
      = predictGOPPIs_naive mgoSim hostGOdf pathogenGOdf semData go_sim_method
          go_combine simScore :=
  congrArg (ResultTable.mk ["Host", "Pathogen", "Host_GO", "Pathogen_GO", "Similarity_Score"])
    (predictGOPPIs_rows mgoSim hostGOdf pathogenGOdf semData go_sim_method go_combine
      simScore chunk_size hcs)

/-- Witness for C4 with a deterministic stub scorer, two pairs and chunk
size 1 (one pair per chunk). -/
theorem predictGOPPIs_eq_naive_witness :
    (1 : ℕ) ≤ 1
      ∧ predictGOPPIs (fun _ _ _ _ _ => Except.ok (PyFloat.finite 1))
          [("h1", "GO:0001"), ("h2", "GO:0002")] [("p1", "GO:0003")] () "Wang" "BMA"
          (PyFloat.finite 0) 1
        = predictGOPPIs_naive (fun _ _ _ _ _ => Except.ok (PyFloat.finite 1))
          [("h1", "GO:0001"), ("h2", "GO:0002")] [("p1", "GO:0003")] () "Wang" "BMA"
          (PyFloat.finite 0) :=
  ⟨Nat.le_refl 1,
   predictGOPPIs_eq_naive (fun _ _ _ _ _ => Except.ok (PyFloat.finite 1))
     [("h1", "GO:0001"), ("h2", "GO:0002")] [("p1", "GO:0003")] () "Wang" "BMA"
     (PyFloat.finite 0) 1 (Nat.le_refl 1)⟩

/-- C5: when the external scoring call raises for a specific pair,
`calculate_go_similarity` returns `None` rather than raising uncontrolled
(in this embedding it is a total function into `Option`), `process_pair`
yields no row for that pair, and the run's result rows are exactly those
obtained by processing all the other generated pairs normally. -/
theorem scoring_error_isolated [DecidableEq σ] (mgoSim : MgoSim σ) (a : PairTask σ)
    (hostGOdf pathogenGOdf : List (String × String)) (chunk_size : ℕ)
    (hcs : 1 ≤ chunk_size)
    (herr : mgoSim a.host_go a.pathogen_go a.semData a.go_sim_method a.go_combine
      = Except.error ()) :
    calculate_go_similarity mgoSim a.host_go a.pathogen_go a.semData a.go_sim_method
        a.go_combine = none
      ∧ process_pair mgoSim a = none
      ∧ (predictGOPPIs mgoSim hostGOdf pathogenGOdf a.semData a.go_sim_method
            a.go_combine a.simScore chunk_size).rows
          = ((mkPairs hostGOdf pathogenGOdf a.semData a.go_sim_method a.go_combine
                a.simScore).filter
              (fun q => decide (q ≠ a))).filterMap (process_pair mgoSim) := by
  have hcalc : calculate_go_similarity mgoSim a.host_go a.pathogen_go a.semData
      a.go_sim_method a.go_combine = none := by
    simp [calculate_go_similarity, herr]
  have hpp : process_pair mgoSim a = none := by
    simp [process_pair, hcalc]
  refine ⟨hcalc, hpp, ?_⟩
  rw [predictGOPPIs_rows mgoSim hostGOdf pathogenGOdf a.semData a.go_sim_method
    a.go_combine a.simScore chunk_size hcs]
  apply filterMap_eq_filterMap_filter
  intro x _ hkeep
  have hxa : x = a := by simpa using hkeep
  rw [hxa]
  exact hpp

/-- Witness for C5: a scorer stub that raises on every call; the single
generated pair is excluded and the result agrees with processing the
(empty) remainder. -/
theorem scoring_error_isolated_witness :
    (1 : ℕ) ≤ 1
      ∧ (fun _ _ _ _ _ => (Except.error () : Except Unit PyFloat)) "GO:0001" "GO:0002"
          () "Wang" "BMA" = Except.error ()
      ∧ (calculate_go_similarity (fun _ _ _ _ _ => (Except.error () : Except Unit PyFloat))
            "GO:0001" "GO:0002" () "Wang" "BMA" = none
        ∧ process_pair (fun _ _ _ _ _ => (Except.error () : Except Unit PyFloat))
            (⟨"h1", "GO:0001", "p1", "GO:0002", (), "Wang", "BMA", PyFloat.finite 0⟩ :
              PairTask Unit) = none
        ∧ (predictGOPPIs (fun _ _ _ _ _ => (Except.error () : Except Unit PyFloat))
              [("h1", "GO:0001")] [("p1", "GO:0002")] () "Wang" "BMA"
              (PyFloat.finite 0) 1).rows
            = ((mkPairs [("h1", "GO:0001")] [("p1", "GO:0002")] () "Wang" "BMA"
                  (PyFloat.finite 0)).filter
                (fun q => decide (q ≠ (⟨"h1", "GO:0001", "p1", "GO:0002", (), "Wang",
                  "BMA", PyFloat.finite 0⟩ : PairTask Unit)))).filterMap
              (process_pair (fun _ _ _ _ _ => (Except.error () : Except Unit PyFloat)))) :=
  ⟨Nat.le_refl 1, rfl,
   scoring_error_isolated (fun _ _ _ _ _ => (Except.error () : Except Unit PyFloat))
     (⟨"h1", "GO:0001", "p1", "GO:0002", (), "Wang", "BMA", PyFloat.finite 0⟩ :
       PairTask Unit)
     [("h1", "GO:0001")] [("p1", "GO:0002")] 1 (Nat.le_refl 1) rfl⟩

/-- C10 counterexample: the claim fails as stated — when the external
scoring call returns NaN (as GOSemSim does for an NA similarity),
`calculate_go_similarity` returns it as a defined value that is not a
finite float; the code applies no finiteness check. -/
theorem calculate_go_similarity_nan_counterexample :
    calculate_go_similarity (fun _ _ _ _ _ => Except.ok PyFloat.nan) "GO:0001" "GO:0002"
        () "Wang" "BMA" = some PyFloat.nan
      ∧ PyFloat.isFinite PyFloat.nan = false :=
  ⟨rfl, rfl⟩

/-- C10 (amended): `calculate_go_similarity` forwards the external scoring
value unchanged whenever the call returns normally, so its defined value is
finite exactly when the external capability returned a finite float — in
particular it is finite whenever the external value is; no finiteness check
is applied, and a NaN that slips through is rejected by the strict
threshold comparison, since `NaN > t` is false for every threshold. -/
theorem calculate_go_similarity_forwards (mgoSim : MgoSim σ)
    (host_go pathogen_go : String) (semData : σ) (go_sim_method go_combine : String)
    (v : PyFloat)
    (h : mgoSim host_go pathogen_go semData go_sim_method go_combine = Except.ok v) :
    calculate_go_similarity mgoSim host_go pathogen_go semData go_sim_method
        go_combine = some v
      ∧ (v.isFinite = true →
          ∀ w, calculate_go_similarity mgoSim host_go pathogen_go semData
              go_sim_method go_combine = some w → w.isFinite = true)
      ∧ (∀ t, PyFloat.gt PyFloat.nan t = false) := by
  have h1 : calculate_go_similarity mgoSim host_go pathogen_go semData go_sim_method
      go_combine = some v := by
    simp [calculate_go_similarity, h]
  refine ⟨h1, ?_, ?_⟩
  · intro hv w hw
    rw [h1] at hw
    rw [← Option.some.inj hw]
    exact hv
  · intro t
    cases t <;> rfl

/-- Witness for the amended C10: an external call returning the finite
float 1 is forwarded as the defined, finite result. -/
theorem calculate_go_similarity_forwards_witness :
    (fun _ _ _ _ _ => (Except.ok (PyFloat.finite 1) : Except Unit PyFloat)) "GO:0001"
        "GO:0002" () "Wang" "BMA" = Except.ok (PyFloat.finite 1)
      ∧ (calculate_go_similarity (fun _ _ _ _ _ =>
            (Except.ok (PyFloat.finite 1) : Except Unit PyFloat)) "GO:0001" "GO:0002"
            () "Wang" "BMA" = some (PyFloat.finite 1)
        ∧ ((PyFloat.finite 1).isFinite = true →
            ∀ w, calculate_go_similarity (fun _ _ _ _ _ =>
                (Except.ok (PyFloat.finite 1) : Except Unit PyFloat)) "GO:0001" "GO:0002"
                () "Wang" "BMA" = some w → w.isFinite = true)
        ∧ (∀ t, PyFloat.gt PyFloat.nan t = false)) :=
  ⟨rfl,
   calculate_go_similarity_forwards (fun _ _ _ _ _ =>
     (Except.ok (PyFloat.finite 1) : Except Unit PyFloat)) "GO:0001" "GO:0002"
     () "Wang" "BMA" (PyFloat.finite 1) rfl⟩

end HPIpy
